import Mathlib

/-!
Shallow embedding of the compliance-checking core of the repository
(`src/base_checker.py`, `src/docx_compliance.py`, `src/pptx_compliance.py`,
`src/config.py`, `src/smart_compliance_checker_complete_Version2.py`).

Modelling conventions:
* Python strings are `List Char`; ASCII case mapping uses core
  `Char.toLower` and `Char.toUpper`, which agree with Python
  `str.lower` and `str.upper` on ASCII text.
* Python floats are modelled as exact rationals.
* Python dicts built by comprehensions are modelled as insertion lists
  together with a last-write-wins lookup function, `pyDict`, which is
  the mapping a Python dict denotes.
* The heterogeneous `details` dict of results is not modelled; no claim
  depends on it.
-/

/-- Python whitespace for `str.strip` (ASCII). -/
def pyWhitespaceChar (c : Char) : Bool :=
  c = ' ' || c = '\t' || c = '\n' || c = '\r' || c = '\x0b' || c = '\x0c'

/-- Python `str.strip()`: drop whitespace from both ends. -/
def pyStrip (s : List Char) : List Char :=
  ((s.dropWhile pyWhitespaceChar).reverse.dropWhile pyWhitespaceChar).reverse

/-- From `src/config.py` line 56: `COMPLIANCE_THRESHOLD = 0.6`. -/
def COMPLIANCE_THRESHOLD : ℚ := 0.6

/-- From `src/base_checker.py`, `_normalize_text_cached`:
`str(text).strip().lower().replace(" ", "").replace("-", "").replace("_", "")`,
with the guard `if not text: return ""`. -/
def normalize_text_cached (text : List Char) : List Char :=
  if text = [] then []
  else ((pyStrip text).map Char.toLower).filter (fun c => !(c = ' ' || c = '-' || c = '_'))

/-- From `src/base_checker.py`, `_calculate_similarity_score`. -/
def calculate_similarity_score (text1 text2 : List Char) : ℚ :=
  if text1 = [] || text2 = [] then 0
  else
    let norm1 := normalize_text_cached text1
    let norm2 := normalize_text_cached text2
    if norm1 = norm2 then 1
    else
      let set1 := norm1.toFinset
      let set2 := norm2.toFinset
      let inter := (set1 ∩ set2).card
      let uni := (set1 ∪ set2).card
      if 0 < uni then (inter : ℚ) / (uni : ℚ) else 0

/-- Python `max` over a similarity list (nonempty in the source; the
empty case is unreachable there and mapped to 0 here). -/
def pyMax : List ℚ → ℚ
  | [] => 0
  | x :: xs => xs.foldl max x

/-- Python `list.index`: position of the first occurrence (the
not-found ValueError case returns the length; the source only calls it
on a member). -/
def pyIndex (x : ℚ) : List ℚ → ℕ
  | [] => 0
  | y :: ys => if y = x then 0 else pyIndex x ys + 1

/-- From `src/base_checker.py`, `_vectorized_text_match`: returns
(is_match, max_similarity, best_match). `best_match_idx` is
`similarities.index(max_similarity)`, the first index attaining the
maximum. -/
def vectorized_text_match (target : List Char) (candidates : List (List Char))
    (threshold : ℚ) : Bool × ℚ × Option (List Char) :=
  if target = [] || candidates = [] then (false, 0, none)
  else
    let similarities := candidates.map (calculate_similarity_score target)
    let max_similarity := pyMax similarities
    let best_match_idx := pyIndex max_similarity similarities
    let best_match := candidates.getD best_match_idx []
    (decide (max_similarity ≥ threshold), max_similarity, some best_match)

/-- The `ComplianceResult` dataclass of `src/base_checker.py` (without
the heterogeneous `details` dict). -/
structure ComplianceResult where
  check_name : List Char
  passed : Bool
  score : ℚ
  errors : List (List Char)
deriving DecidableEq

/-- From `src/base_checker.py`, `_check_field_compliance`.
`document_value` is `none` for a missing key; Python truthiness also
treats the empty string as missing. The Excel values are kept as
optional strings so that the source's `if val is not None` filter is
represented. The `except` arm of the source is unreachable in this
pure model. -/
def check_field_compliance (field_name : List Char) (document_value : Option (List Char))
    (excel_values : List (Option (List Char))) : ComplianceResult :=
  let vname := field_name ++ "_validation".data
  match document_value with
  | none => ⟨vname, false, 0, [field_name ++ " not found in document".data]⟩
  | some d =>
    if d = [] then ⟨vname, false, 0, [field_name ++ " not found in document".data]⟩
    else if excel_values = [] then
      ⟨vname, false, 0, [field_name ++ " not found in Excel data".data]⟩
    else
      let excel_strs := excel_values.filterMap id
      let m := vectorized_text_match d excel_strs (0.8 : ℚ)
      ⟨vname, m.1, m.2.1, []⟩

/-- Last-write-wins lookup for a Python dict built by inserting the
pairs of `l` in order: the mapping a dict comprehension denotes. -/
def pyDict {α β : Type} [DecidableEq α] (l : List (α × β)) : α → Option β :=
  l.foldl (fun m p => fun x => if x = p.1 then some p.2 else m x) (fun _ => none)

/-- The aggregated report of `_calculate_overall_score`
(`src/base_checker.py`). The empty-input branch of the source returns a
dict without the `pass_rate` and `individual_scores` keys, hence the
`Option` fields. `individual_scores` keeps the insertion list of the
dict comprehension; `pyDict` gives its dict semantics. -/
structure OverallStats where
  overall_score : ℚ
  pass_rate : Option ℚ
  passed_checks : ℕ
  total_checks : ℕ
  compliance_level : List Char
  individual_scores : Option (List ((List Char) × ℚ))
deriving DecidableEq

/-- From `src/base_checker.py`, `_calculate_overall_score`; `np.mean`
is the sum divided by the length, modelled exactly over ℚ. -/
def calculate_overall_score (results : List ComplianceResult) : OverallStats :=
  if results = [] then
    ⟨0, none, 0, 0, "Non-compliant".data, none⟩
  else
    let scores := results.map (fun r => r.score)
    let passed_count := (results.filter (fun r => r.passed)).length
    let overall_score := scores.sum / (results.length : ℚ)
    let compliance_level :=
      if overall_score ≥ (0.9 : ℚ) then "Fully Compliant".data
      else if overall_score ≥ COMPLIANCE_THRESHOLD then "Compliant".data
      else if overall_score ≥ (0.4 : ℚ) then "Partially Compliant".data
      else "Non-compliant".data
    ⟨overall_score, some ((passed_count : ℚ) / (results.length : ℚ)), passed_count,
      results.length, compliance_level,
      some (results.map (fun r => (r.check_name, r.score)))⟩

/-- From `src/base_checker.py`, `_run_checks_parallel`. A submitted
check is its name together with either its returned `ComplianceResult`
or the message of the exception it raised; `as_completed` yields the
futures in an arbitrary permutation of this list, and each future is
converted independently, so the conversion is modelled positionally.
The legacy-dict branch of the source only applies to checks that do not
return a `ComplianceResult` and is not modelled. -/
def run_checks_parallel (checks : List ((List Char) × Except (List Char) ComplianceResult)) :
    List ComplianceResult :=
  checks.map (fun c =>
    match c.2 with
    | Except.ok result => result
    | Except.error e => ⟨c.1, false, 0, [e]⟩)

/-- The four Excel columns consulted by the modular first-page check;
a key absent from `excel_data` is modelled as the empty list, which the
source's `key in dict and dict[key]` guard treats identically. -/
structure ExcelFields where
  business_app_id : List (Option (List Char))
  enterprise_release_id : List (Option (List Char))
  project_name : List (Option (List Char))
  task_id : List (Option (List Char))
deriving DecidableEq

/-- The `first_page_data` (or `first_slide_data`) fields consulted by
the modular checkers; `none` models a missing key. -/
structure FirstPageData where
  business_app_id : Option (List Char)
  enterprise_release_id : Option (List Char)
  project_name : Option (List Char)
  task_id : Option (List Char)
deriving DecidableEq

/-- The list `field_checks` built by `_check_first_page_compliance` in
`src/docx_compliance.py` (one entry per Excel column that is present
and non-empty). -/
def first_page_field_checks (excel : ExcelFields) (fp : FirstPageData) :
    List ComplianceResult :=
  (if excel.business_app_id ≠ [] then
    [check_field_compliance "business_app_id".data fp.business_app_id excel.business_app_id]
   else []) ++
  (if excel.enterprise_release_id ≠ [] then
    [check_field_compliance "enterprise_release_id".data fp.enterprise_release_id
      excel.enterprise_release_id]
   else []) ++
  (if excel.project_name ≠ [] then
    [check_field_compliance "project_name".data fp.project_name excel.project_name]
   else []) ++
  (if excel.task_id ≠ [] then
    [check_field_compliance "task_id".data fp.task_id excel.task_id]
   else [])

/-- From `src/docx_compliance.py`, `_check_first_page_compliance`:
mean of the field-check scores, pass only when all field checks
passed (False when no field was checked). -/
def check_first_page_compliance (excel : ExcelFields) (fp : FirstPageData) :
    ComplianceResult :=
  let field_checks := first_page_field_checks excel fp
  if field_checks = [] then ⟨"first_page_validation".data, false, 0, []⟩
  else
    ⟨"first_page_validation".data, field_checks.all (fun c => c.passed),
      (field_checks.map (fun c => c.score)).sum / (field_checks.length : ℚ), []⟩

/-- From `src/pptx_compliance.py`, `_check_first_slide_compliance`:
identical field logic behind a `has_content` gate. -/
def check_first_slide_compliance (has_content : Bool) (excel : ExcelFields)
    (fp : FirstPageData) : ComplianceResult :=
  if !has_content then
    ⟨"first_slide_validation".data, false, 0, ["First slide has no content".data]⟩
  else
    let field_checks := first_page_field_checks excel fp
    if field_checks = [] then ⟨"first_slide_validation".data, false, 0, []⟩
    else
      ⟨"first_slide_validation".data, field_checks.all (fun c => c.passed),
        (field_checks.map (fun c => c.score)).sum / (field_checks.length : ℚ), []⟩

/-- Case-insensitive equality as Python `a.lower() == b.lower()`. -/
def eqLower (a b : List Char) : Bool :=
  a.map Char.toLower == b.map Char.toLower

/-- Case-insensitive equality as Python `a.upper() == b.upper()`. -/
def eqUpper (a b : List Char) : Bool :=
  a.map Char.toUpper == b.map Char.toUpper

/-- Python regex word character (ASCII): letters, digits, underscore. -/
def isWordChar (c : Char) : Bool :=
  c.isAlphanum || c = '_'

/-- Full match of `^RLSE\d{7}$` with IGNORECASE
(`_validate_id_format`, field `release`). -/
def matchesRLSE7 (s : List Char) : Bool :=
  s.length = 11 && (s.take 4).map Char.toLower == "rlse".data && (s.drop 4).all Char.isDigit

/-- Full match of `^\d{8}$` (`_validate_id_format`, field `business_app_id`). -/
def matchesEightDigits (s : List Char) : Bool :=
  s.length = 8 && s.all Char.isDigit

/-- Full match of `^PRJ0\d{4}$` with IGNORECASE
(`_validate_id_format`, field `clarity_project_id`). -/
def matchesPRJ0 (s : List Char) : Bool :=
  s.length = 8 && (s.take 4).map Char.toLower == "prj0".data && (s.drop 4).all Char.isDigit

/-- `re.match` of `\b\d{4}\.M\d{2}\b` with IGNORECASE
(`_validate_id_format`, field `enterprise_release_id`): anchored at the
start, the leading boundary holds because the first char is a digit,
and the trailing boundary needs a non-word character or the end after
the two digits. `re.match` does not require a full match. -/
def matchesYearM (s : List Char) : Bool :=
  match s with
  | a :: b :: c :: d :: dot :: m :: e :: f :: rest =>
    a.isDigit && b.isDigit && c.isDigit && d.isDigit && dot = '.' &&
    m.toLower = 'm' && e.isDigit && f.isDigit &&
    (match rest with
     | [] => true
     | r :: _ => !isWordChar r)
  | _ => false

/-- From `src/smart_compliance_checker_complete_Version2.py`,
`_validate_id_format` (lines 1555-1573): a case-insensitively equal
pair returns True before any format pattern is consulted. -/
def validate_id_format (field_type excel_value doc_value : List Char) : Bool :=
  if eqLower excel_value doc_value then true
  else if field_type = "release".data then
    matchesRLSE7 doc_value && eqUpper excel_value doc_value
  else if field_type = "business_app_id".data then
    matchesEightDigits doc_value && excel_value == doc_value
  else if field_type = "clarity_project_id".data then
    matchesPRJ0 doc_value && eqUpper excel_value doc_value
  else if field_type = "enterprise_release_id".data then
    matchesYearM doc_value && eqUpper excel_value doc_value
  else eqLower excel_value doc_value

/-- Python truthiness of an optional string. -/
def truthyOpt (o : Option (List Char)) : Bool :=
  match o with
  | none => false
  | some s => !s.isEmpty

/-- The per-field status string recorded by the Version2
`_check_first_page_compliance` field loop. -/
def v2_field_status (field_type : List Char) (excel_value doc_value : Option (List Char)) :
    List Char :=
  if truthyOpt excel_value && truthyOpt doc_value then
    (if validate_id_format field_type (pyStrip (excel_value.getD []))
        (pyStrip (doc_value.getD [])) then "match".data else "mismatch".data)
  else if !truthyOpt excel_value then "missing_excel".data
  else "missing_document".data

/-- The Version2 Excel record: each field holds the value of
`excel_data.get(field, [None])[0]`, the first candidate of the column
(`none` when the column is absent or holds None). -/
structure V2ExcelData where
  business_application : Option (List Char)
  business_app_id : Option (List Char)
  clarity_project_id : Option (List Char)
  project_name : Option (List Char)
  release : Option (List Char)
  enterprise_release_id : Option (List Char)
deriving DecidableEq

/-- The Version2 `first_page_data` fields consulted by the first-page
check. -/
structure V2FirstPageData where
  application_name : Option (List Char)
  application_id : Option (List Char)
  project_id : Option (List Char)
  project_name : Option (List Char)
  release : Option (List Char)
  enterprise_release_id : Option (List Char)
deriving DecidableEq

/-- The six (excel field, excel value, doc value, display name) rows of
`field_mappings` in the Version2 `_check_first_page_compliance`. -/
def v2_field_mappings (excel : V2ExcelData) (fp : V2FirstPageData) :
    List ((List Char) × Option (List Char) × Option (List Char) × (List Char)) :=
  [("business_application".data, excel.business_application, fp.application_name,
      "Business Application".data),
   ("business_app_id".data, excel.business_app_id, fp.application_id,
      "Application ID".data),
   ("clarity_project_id".data, excel.clarity_project_id, fp.project_id,
      "Project ID".data),
   ("project_name".data, excel.project_name, fp.project_name,
      "Project Name".data),
   ("release".data, excel.release, fp.release, "Release".data),
   ("enterprise_release_id".data, excel.enterprise_release_id, fp.enterprise_release_id,
      "Enterprise Release ID".data)]

/-- Result of the Version2 first-page check (its `ComplianceResult` is
a different dataclass; the formatted detail strings are not modelled,
the per-field status map is kept). -/
structure V2CheckResult where
  passed : Bool
  score : ℚ
  match_count : ℕ
  field_results : List ((List Char) × (List Char))
deriving DecidableEq

/-- From `src/smart_compliance_checker_complete_Version2.py`,
`OptimizedDocxComplianceChecker._check_first_page_compliance` (lines
1488-1553): binary match count over the six fixed fields, score is
matches divided by six, passed iff score at least 0.6. -/
def v2_check_first_page_compliance (excel : V2ExcelData) (fp : V2FirstPageData) :
    V2CheckResult :=
  let mappings := v2_field_mappings excel fp
  let field_results := mappings.map (fun m => (m.2.2.2, v2_field_status m.1 m.2.1 m.2.2.1))
  let match_count :=
    (mappings.filter (fun m => v2_field_status m.1 m.2.1 m.2.2.1 == "match".data)).length
  let total_fields := mappings.length
  let score : ℚ := if 0 < total_fields then (match_count : ℚ) / (total_fields : ℚ) else 0
  ⟨decide (score ≥ (0.6 : ℚ)), score, match_count, field_results⟩

/-- Case-insensitive literal prefix test (IGNORECASE literals). -/
def startsWithCI : List Char → List Char → Bool
  | [], _ => true
  | _ :: _, [] => false
  | p :: ps, t :: ts => (p.toLower == t.toLower) && startsWithCI ps ts

/-- Length of the longest prefix whose characters satisfy `p`. -/
def countLeading (p : Char → Bool) : List Char → ℕ
  | [] => 0
  | c :: cs => if p c then countLeading p cs + 1 else 0

/-- One token of a transcribed regular expression: a case-insensitive
literal, a character-class repetition (star or plus), or an optional
character class. -/
inductive Tok where
  | lit : List Char → Tok
  | rep0 : (Char → Bool) → Tok
  | rep1 : (Char → Bool) → Tok
  | opt : (Char → Bool) → Tok

/-- All positions at which a match of `tok` starting at position `i`
of `text` can end. -/
def tokEnds (text : List Char) (tok : Tok) (i : ℕ) : List ℕ :=
  match tok with
  | Tok.lit s => if startsWithCI s (text.drop i) then [i + s.length] else []
  | Tok.rep0 p => (List.range (countLeading p (text.drop i) + 1)).map (fun k => i + k)
  | Tok.rep1 p =>
      let n := countLeading p (text.drop i)
      (List.range n).map (fun k => i + k + 1)
  | Tok.opt p =>
      i :: (match text.drop i with
            | c :: _ => if p c then [i + 1] else []
            | [] => [])

/-- All positions at which a match of the token sequence starting at
position `i` can end. -/
def seqEnds (text : List Char) (toks : List Tok) (i : ℕ) : List ℕ :=
  toks.foldl (fun acc tok => acc.flatMap (tokEnds text tok)) [i]

/-- Is the character at position `i` a regex word character
(out-of-range counts as no). -/
def wordAt (text : List Char) (i : ℕ) : Bool :=
  match text.drop i with
  | c :: _ => isWordChar c
  | [] => false

/-- Regex word boundary at position `i` of `text`. -/
def boundaryAt (text : List Char) (i : ℕ) : Bool :=
  (if i = 0 then false else wordAt text (i - 1)) != wordAt text i

/-- `re.search` of an alternation of token sequences (no boundary
anchors): some alternative matches somewhere. -/
def searchTokens (alts : List (List Tok)) (text : List Char) : Bool :=
  (List.range (text.length + 1)).any (fun i =>
    alts.any (fun ts => !(seqEnds text ts i).isEmpty))

/-- `re.search` of an alternation wrapped in word-boundary anchors. -/
def searchTokensWB (alts : List (List Tok)) (text : List Char) : Bool :=
  (List.range (text.length + 1)).any (fun i =>
    boundaryAt text i &&
      alts.any (fun ts => (seqEnds text ts i).any (fun j => boundaryAt text j)))

/-- The pattern `table\s+of\s+contents` (IGNORECASE) used for the TOC
header in the Version2 `_check_table_of_contents`. -/
def TOC_HEADER : List (List Tok) :=
  [[Tok.lit "table".data, Tok.rep1 pyWhitespaceChar, Tok.lit "of".data,
    Tok.rep1 pyWhitespaceChar, Tok.lit "contents".data]]

/-- The character class of a single literal character. -/
def litClass (c : Char) : Char → Bool := fun x => x = c

/-- The class of whitespace or hyphen characters. -/
def wsOrHyphen (c : Char) : Bool := pyWhitespaceChar c || c = '-'

/-- The class of whitespace or slash characters. -/
def wsOrSlash (c : Char) : Bool := pyWhitespaceChar c || c = '/'

/-- Pattern of `REQUIRED_TOC_SECTIONS` key `non_functional_requirement`:
the alternatives of `3\.3\.?\s*(?:non[\s\-]?functional\s+requirement|nfr)`
(the surrounding word boundaries are applied by `searchTokensWB`). -/
def SECTION_NFR : List (List Tok) :=
  [[Tok.lit "3.3".data, Tok.opt (litClass '.'), Tok.rep0 pyWhitespaceChar,
    Tok.lit "non".data, Tok.opt wsOrHyphen, Tok.lit "functional".data,
    Tok.rep1 pyWhitespaceChar, Tok.lit "requirement".data],
   [Tok.lit "3.3".data, Tok.opt (litClass '.'), Tok.rep0 pyWhitespaceChar,
    Tok.lit "nfr".data]]

/-- Pattern of key `in_scope`: `3\.4\.?\s*in[\s\-]?scope`. -/
def SECTION_IN_SCOPE : List (List Tok) :=
  [[Tok.lit "3.4".data, Tok.opt (litClass '.'), Tok.rep0 pyWhitespaceChar,
    Tok.lit "in".data, Tok.opt wsOrHyphen, Tok.lit "scope".data]]

/-- Pattern of key `out_of_scope`:
`3\.5\.?\s*(?:out[\s\-]?of[\s\-]?scope|out[\s\-]?scope)`. -/
def SECTION_OUT_OF_SCOPE : List (List Tok) :=
  [[Tok.lit "3.5".data, Tok.opt (litClass '.'), Tok.rep0 pyWhitespaceChar,
    Tok.lit "out".data, Tok.opt wsOrHyphen, Tok.lit "of".data, Tok.opt wsOrHyphen,
    Tok.lit "scope".data],
   [Tok.lit "3.5".data, Tok.opt (litClass '.'), Tok.rep0 pyWhitespaceChar,
    Tok.lit "out".data, Tok.opt wsOrHyphen, Tok.lit "scope".data]]

/-- Pattern of key `test_execution`: `4\.1\.?\s*test[\s\-]?execution`. -/
def SECTION_TEST_EXECUTION : List (List Tok) :=
  [[Tok.lit "4.1".data, Tok.opt (litClass '.'), Tok.rep0 pyWhitespaceChar,
    Tok.lit "test".data, Tok.opt wsOrHyphen, Tok.lit "execution".data]]

/-- Pattern of key `milestones`:
`12\.?\s*(?:milestones|deliverables|milestones[\s/]*deliverables)`. -/
def SECTION_MILESTONES : List (List Tok) :=
  [[Tok.lit "12".data, Tok.opt (litClass '.'), Tok.rep0 pyWhitespaceChar,
    Tok.lit "milestones".data],
   [Tok.lit "12".data, Tok.opt (litClass '.'), Tok.rep0 pyWhitespaceChar,
    Tok.lit "deliverables".data],
   [Tok.lit "12".data, Tok.opt (litClass '.'), Tok.rep0 pyWhitespaceChar,
    Tok.lit "milestones".data, Tok.rep0 wsOrSlash, Tok.lit "deliverables".data]]

/-- The `REQUIRED_TOC_SECTIONS` registry of the Version2 analyzer
(keys in source order). -/
def REQUIRED_TOC_SECTIONS : List ((List Char) × List (List Tok)) :=
  [("non_functional_requirement".data, SECTION_NFR),
   ("in_scope".data, SECTION_IN_SCOPE),
   ("out_of_scope".data, SECTION_OUT_OF_SCOPE),
   ("test_execution".data, SECTION_TEST_EXECUTION),
   ("milestones".data, SECTION_MILESTONES)]

/-- The `toc_data` dict produced by the Version2
`_check_table_of_contents` (the per-section name/description strings of
`required_sections` are kept as found flags). -/
structure TocData where
  has_table_of_contents : Bool
  has_comprehensive_toc : Bool
  toc_compliance_percentage : ℚ
  found_sections_count : ℕ
  total_sections_count : ℕ
  sections_found : List ((List Char) × Bool)
deriving DecidableEq

/-- From `src/smart_compliance_checker_complete_Version2.py`,
`_check_table_of_contents` (lines 1201-1243): the TOC header flag and
the required-section count are computed by independent searches. -/
def check_table_of_contents (document_text : List Char) : TocData :=
  let has_toc := searchTokens TOC_HEADER document_text
  let sections_found :=
    REQUIRED_TOC_SECTIONS.map (fun s => (s.1, searchTokensWB s.2 document_text))
  let found_sections := (sections_found.filter (fun s => s.2)).length
  let total := REQUIRED_TOC_SECTIONS.length
  ⟨has_toc, decide ((found_sections : ℚ) ≥ (total : ℚ) * (0.6 : ℚ)),
    (found_sections : ℚ) / (total : ℚ) * 100, found_sections, total, sections_found⟩

/-- Result of the Version2 `_check_table_of_contents_compliance`
(detail strings not modelled). -/
structure V2TocCheck where
  passed : Bool
  score : ℚ
deriving DecidableEq

/-- From `src/smart_compliance_checker_complete_Version2.py`,
`_check_table_of_contents_compliance` (lines 1650-1680): score is the
compliance percentage over 100; passed needs the TOC header AND score
at least 0.6. -/
def v2_check_table_of_contents_compliance (toc : TocData) : V2TocCheck :=
  let score := toc.toc_compliance_percentage / 100
  ⟨toc.has_table_of_contents && decide (score ≥ (0.6 : ℚ)), score⟩

/-- From `src/docx_compliance.py`, `_check_table_of_contents_compliance`
(lines 157-202): fixed weights 0.6 for the TOC flag and 0.4 for the
scope-section flag, passed iff score at least 0.8. -/
def docx_check_table_of_contents_compliance (has_toc has_scope_section : Bool) :
    ComplianceResult :=
  let score : ℚ := (if has_toc then 0.6 else 0) + (if has_scope_section then 0.4 else 0)
  let errors :=
    (if !has_toc then ["Table of contents not found".data] else []) ++
    (if !has_scope_section then ["Section 3.3 In Scope not found".data] else [])
  ⟨"table_of_contents_validation".data, decide (score ≥ (0.8 : ℚ)), score, errors⟩

/-- Take exactly `n` leading digits: `\d{n}` as a fixed repetition. -/
def splitDigits (n : ℕ) (s : List Char) : Option ((List Char) × List Char) :=
  let d := s.take n
  if d.length = n && d.all Char.isDigit then some (d, s.drop n) else none

/-- Consume a literal slash. -/
def expectSlash : List Char → Option (List Char)
  | '/' :: r => some r
  | _ => none

/-- One backtracking branch of `(\d{1,2})/(\d{1,2})/(\d{4})` anchored
at the start: month of `mLen` digits, slash, day of `dLen` digits,
slash, four-digit year. Returns the three captures and the number of
consumed characters. -/
def parseMDYAt (mLen dLen : ℕ) (s : List Char) :
    Option ((List Char) × (List Char) × (List Char) × ℕ) :=
  match splitDigits mLen s with
  | none => none
  | some (m, r1) =>
    match expectSlash r1 with
    | none => none
    | some r2 =>
      match splitDigits dLen r2 with
      | none => none
      | some (d, r3) =>
        match expectSlash r3 with
        | none => none
        | some r4 =>
          match splitDigits 4 r4 with
          | none => none
          | some (y, _) => some (m, d, y, mLen + 1 + dLen + 1 + 4)

/-- `re.match` of `(\d{1,2})/(\d{1,2})/(\d{4})` at the start of `s`:
the greedy bounded repetitions backtrack in the order month 2 then 1,
and within each, day 2 then 1. -/
def parseMDY (s : List Char) : Option ((List Char) × (List Char) × (List Char) × ℕ) :=
  match parseMDYAt 2 2 s with
  | some r => some r
  | none =>
    match parseMDYAt 2 1 s with
    | some r => some r
    | none =>
      match parseMDYAt 1 2 s with
      | some r => some r
      | none => parseMDYAt 1 1 s

/-- Python `str(int(s))` for a non-empty digit string: drop leading
zeros, keeping a single zero. -/
def pyIntStr (s : List Char) : List Char :=
  let t := s.dropWhile (fun c => c = '0')
  if t = [] then ['0'] else t

/-- From `src/smart_compliance_checker_complete_Version2.py`,
`normalize_date` (lines 494-520): empty input returned as is;
otherwise the input is stripped, and if `re.match` finds an M/D/YYYY
prefix the result is rebuilt from the captures with leading zeros
removed (any text after the match is dropped); otherwise the stripped
string is returned. -/
def normalize_date (date_str : List Char) : List Char :=
  if date_str = [] then date_str
  else
    let stripped := pyStrip date_str
    match parseMDY stripped with
    | some (m, d, y, _) => pyIntStr m ++ '/' :: (pyIntStr d ++ '/' :: y)
    | none => stripped

/-- Fuel-indexed scanner for `findall` of `(\d{1,2})/(\d{1,2})/(\d{4})`
(`OptimizedPatterns.DATE_GENERAL`): try each position left to right,
continue after the end of a match. The fuel is the untried length, so
`findallDates` never exhausts it. -/
def findallDatesFuel : ℕ → List Char → List (List Char)
  | 0, _ => []
  | _ + 1, [] => []
  | fuel + 1, c :: rest =>
    match parseMDY (c :: rest) with
    | some (m, d, y, k) =>
      (m ++ '/' :: (d ++ '/' :: y)) :: findallDatesFuel fuel ((c :: rest).drop k)
    | none => findallDatesFuel fuel rest

/-- `OptimizedPatterns.DATE_GENERAL.findall`. -/
def findallDates (s : List Char) : List (List Char) :=
  findallDatesFuel s.length s

/-- `re.match`-style step of `OptimizedPatterns.DATE_IMPLEMENTATION`
(`Implementation\s+Date[:\s]*(\d{1,2}/\d{1,2}/\d{4})`, IGNORECASE) at
the start of `s`: returns the captured date and the match length. The
greedy `\s+` and `[:\s]*` repetitions cannot overlap the literals or
digits that follow them, so maximal munch is exact. -/
def matchImplDateAt (s : List Char) : Option ((List Char) × ℕ) :=
  if startsWithCI "implementation".data s then
    let r1 := s.drop 14
    let w := countLeading pyWhitespaceChar r1
    if w = 0 then none
    else
      let r2 := r1.drop w
      if startsWithCI "date".data r2 then
        let r3 := r2.drop 4
        let cw := countLeading (fun c => c = ':' || pyWhitespaceChar c) r3
        let r4 := r3.drop cw
        match parseMDY r4 with
        | some (m, d, y, k) => some (m ++ '/' :: (d ++ '/' :: y), 14 + w + 4 + cw + k)
        | none => none
      else none
  else none

/-- Fuel-indexed scanner for `DATE_IMPLEMENTATION.findall`. -/
def findallImplDatesFuel : ℕ → List Char → List (List Char)
  | 0, _ => []
  | _ + 1, [] => []
  | fuel + 1, c :: rest =>
    match matchImplDateAt (c :: rest) with
    | some (cap, k) => cap :: findallImplDatesFuel fuel ((c :: rest).drop k)
    | none => findallImplDatesFuel fuel rest

/-- `OptimizedPatterns.DATE_IMPLEMENTATION.findall`. -/
def findallImplDates (s : List Char) : List (List Char) :=
  findallImplDatesFuel s.length s

/-- `\bimplementation\b` (IGNORECASE). -/
def WORD_IMPLEMENTATION : List (List Tok) := [[Tok.lit "implementation".data]]

/-- `\bmilestone\b` (IGNORECASE). -/
def WORD_MILESTONE : List (List Tok) := [[Tok.lit "milestone".data]]

/-- `\b12\.?\s*(?:milestones|deliverables)\b` (IGNORECASE). -/
def TABLE_MILESTONES_12 : List (List Tok) :=
  [[Tok.lit "12".data, Tok.opt (litClass '.'), Tok.rep0 pyWhitespaceChar,
    Tok.lit "milestones".data],
   [Tok.lit "12".data, Tok.opt (litClass '.'), Tok.rep0 pyWhitespaceChar,
    Tok.lit "deliverables".data]]

/-- `\b(?:milestone|deliverable|completion|finish)\b` (IGNORECASE). -/
def MILESTONE_KEYWORDS : List (List Tok) :=
  [[Tok.lit "milestone".data], [Tok.lit "deliverable".data],
   [Tok.lit "completion".data], [Tok.lit "finish".data]]

/-- Join strings with single spaces (Python `' '.join`). -/
def joinSpace (l : List (List Char)) : List Char :=
  List.intercalate [' '] l

/-- The normalized dates the table loop of
`_extract_dates_from_milestones_table` finds, in loop order: a document
is a list of tables, a table a list of rows, a row a list of cell
texts. Mirrors the source loop: strip cells, drop empty cells and
empty rows, keep a table when its joined text mentions the section-12 /
implementation / milestone keywords, then per row scan cells after an
`implementation` cell, or the keyword cell itself, for date substrings,
normalizing each and keeping non-empty results. These are exactly the
values the source passes to `dates.append`. -/
def collect_table_dates (tables : List (List (List (List Char)))) : List (List Char) :=
  tables.flatMap (fun table =>
    let table_text := (table.map (fun row =>
        (row.map pyStrip).filter (fun c => !c.isEmpty))).filter (fun r => !r.isEmpty)
    let full := joinSpace (table_text.map joinSpace)
    if searchTokensWB TABLE_MILESTONES_12 full || searchTokensWB WORD_IMPLEMENTATION full
        || searchTokensWB WORD_MILESTONE full then
      table_text.flatMap (fun row =>
        (List.range row.length).flatMap (fun ci =>
          let cell := row.getD ci []
          if searchTokensWB WORD_IMPLEMENTATION cell then
            (((row.drop (ci + 1)).flatMap findallDates).map normalize_date).filter
              (fun d => !d.isEmpty)
          else if searchTokensWB MILESTONE_KEYWORDS cell then
            ((findallDates cell).map normalize_date).filter (fun d => !d.isEmpty)
          else []))
    else [])

/-- From `src/smart_compliance_checker_complete_Version2.py`,
`_extract_dates_from_milestones_table` (lines 1119-1178). The local
`dates` is initialized to the STRING `""`; every date the loop finds is
passed to `dates.append`, and `str` has no `append`, so the first such
call raises AttributeError, which the surrounding `except` swallows
before returning `dates` - still the empty string. The function
therefore always returns the empty string, never the scanned dates. -/
def extract_dates_from_milestones_table (tables : List (List (List (List Char)))) :
    List Char :=
  match collect_table_dates tables with
  | [] => []
  | _ :: _ => []

/-- Order-preserving de-duplication (the `seen` set loop of
`_extract_implementation_dates_enhanced`). -/
def dedupFirst (l : List (List Char)) : List (List Char) :=
  l.foldl (fun acc d => if acc.contains d then acc else acc ++ [d]) []

/-- Python `repr` of a string without quotes or escapes in it. -/
def pyReprStr (s : List Char) : List Char :=
  '\'' :: (s ++ ['\''])

/-- Python `str` of a list of such strings. -/
def pyReprStrList (l : List (List Char)) : List Char :=
  '[' :: (List.intercalate ", ".data (l.map pyReprStr) ++ [']'])

/-- From `src/smart_compliance_checker_complete_Version2.py`,
`_extract_implementation_dates_enhanced` (lines 1092-1117): direct
label-anchored matches are normalized and collected; the table result
(always the empty string, see above) is spliced in by `list.extend`,
which iterates a string character by character; after order-preserving
de-duplication the function returns `str(unique_dates)` - the repr
STRING of the list, although its annotation declares `List[str]`. -/
def extract_implementation_dates_enhanced (document_text : List Char)
    (tables : List (List (List (List Char)))) : List Char :=
  let direct := ((findallImplDates document_text).filter (fun d => !d.isEmpty)).map
    normalize_date
  let table_dates := extract_dates_from_milestones_table tables
  let dates := direct ++ table_dates.map (fun c => [c])
  let unique_dates := dedupFirst dates
  pyReprStrList unique_dates

/-- The character-set Jaccard index, stated from the spec's words
(section 4.4: "score = character-set Jaccard index of the two
normalized strings") for comparison with the source similarity. -/
def jaccard_char_sets (x y : List Char) : ℚ :=
  ((x.toFinset ∩ y.toFinset).card : ℚ) / ((x.toFinset ∪ y.toFinset).card : ℚ)

/-! Helper lemmas. -/

theorem foldl_max_mem (xs : List ℚ) (x : ℚ) : xs.foldl max x = x ∨ xs.foldl max x ∈ xs := by
  induction xs generalizing x with
  | nil => exact Or.inl rfl
  | cons y ys ih =>
    rcases ih (max x y) with h | h
    · rcases max_choice x y with hxy | hxy
      · exact Or.inl (by rw [List.foldl_cons, h, hxy])
      · refine Or.inr ?_
        rw [List.foldl_cons, h, hxy]
        exact List.mem_cons_self _ _
    · exact Or.inr (List.mem_cons_of_mem _ (by rw [List.foldl_cons]; exact h))

theorem le_foldl_max (xs : List ℚ) (x : ℚ) :
    x ≤ xs.foldl max x ∧ ∀ y ∈ xs, y ≤ xs.foldl max x := by
  induction xs generalizing x with
  | nil => exact ⟨le_refl x, by simp⟩
  | cons z zs ih =>
    obtain ⟨h1, h2⟩ := ih (max x z)
    refine ⟨le_trans (le_max_left x z) ?_, ?_⟩
    · simpa using h1
    · intro y hy
      rcases List.mem_cons.mp hy with rfl | hy
      · exact le_trans (le_max_right x y) (by simpa using h1)
      · simpa using h2 y hy

theorem pyMax_mem (l : List ℚ) (h : l ≠ []) : pyMax l ∈ l := by
  cases l with
  | nil => exact absurd rfl h
  | cons x xs =>
    rcases foldl_max_mem xs x with h1 | h1
    · rw [show pyMax (x :: xs) = xs.foldl max x from rfl, h1]
      exact List.mem_cons_self _ _
    · exact List.mem_cons_of_mem _ (by rw [show pyMax (x :: xs) = xs.foldl max x from rfl]; exact h1)

theorem le_pyMax (l : List ℚ) (y : ℚ) (hy : y ∈ l) : y ≤ pyMax l := by
  cases l with
  | nil => simp at hy
  | cons x xs =>
    rcases List.mem_cons.mp hy with rfl | h
    · exact (le_foldl_max xs y).1
    · exact (le_foldl_max xs x).2 y h

theorem pyIndex_lt_length (x : ℚ) (l : List ℚ) (h : x ∈ l) : pyIndex x l < l.length := by
  induction l with
  | nil => simp at h
  | cons y ys ih =>
    by_cases hxy : y = x
    · simp [pyIndex, hxy]
    · rcases List.mem_cons.mp h with rfl | h2
      · exact absurd rfl hxy
      · simpa [pyIndex, hxy, Nat.succ_lt_succ_iff] using ih h2

theorem get_pyIndex (x : ℚ) (l : List ℚ) (h : pyIndex x l < l.length) :
    l.get ⟨pyIndex x l, h⟩ = x := by
  induction l with
  | nil => simp [pyIndex] at h
  | cons y ys ih =>
    by_cases hxy : y = x
    · simp [pyIndex, hxy]
    · have h' : pyIndex x ys < ys.length := by
        have := h
        simpa [pyIndex, hxy, Nat.succ_lt_succ_iff] using this
      simpa [pyIndex, hxy] using ih h'

theorem get_ne_of_lt_pyIndex (x : ℚ) (l : List ℚ) (j : ℕ) (hj : j < l.length)
    (hlt : j < pyIndex x l) : l.get ⟨j, hj⟩ ≠ x := by
  induction l generalizing j with
  | nil => simp at hj
  | cons y ys ih =>
    by_cases hxy : y = x
    · simp [pyIndex, hxy] at hlt
    · cases j with
      | zero => simpa using hxy
      | succ j' =>
        have hj' : j' < ys.length := by simpa [Nat.succ_lt_succ_iff] using hj
        have hlt' : j' < pyIndex x ys := by
          simpa [pyIndex, hxy, Nat.succ_lt_succ_iff] using hlt
        simpa using ih j' hj' hlt'

/-! Claim theorems. -/

/-- C6: when a submitted check function raises, the run of all checks
still completes: the failing check is converted at the boundary into a
result with passed false, score 0 and a non-empty errors list, the
exception never escapes the collection loop, and every sibling check's
result is still produced and collected in place. -/
theorem run_checks_parallel_isolates_failures :
    (∀ checks, (run_checks_parallel checks).length = checks.length) ∧
    (∀ pre post (n e : List Char),
      run_checks_parallel (pre ++ (n, Except.error e) :: post)
        = run_checks_parallel pre
            ++ (⟨n, false, 0, [e]⟩ : ComplianceResult) :: run_checks_parallel post) ∧
    (∀ pre post (n : List Char) (r : ComplianceResult),
      run_checks_parallel (pre ++ (n, Except.ok r) :: post)
        = run_checks_parallel pre ++ r :: run_checks_parallel post) ∧
    (∀ n e : List Char, (⟨n, false, 0, [e]⟩ : ComplianceResult).errors ≠ []) := by
  refine ⟨?_, ?_, ?_, ?_⟩
  · intro checks; simp [run_checks_parallel]
  · intro pre post n e; simp [run_checks_parallel]
  · intro pre post n r; simp [run_checks_parallel]
  · intro n e; simp

/-- C7 counterexample: for the identifier field `release`, a document
value that is case-insensitively equal to the reference but violates
the RLSE format is still accepted by `_validate_id_format`, so format
validity is not a necessary precondition. -/
theorem validate_id_format_counterexample :
    validate_id_format "release".data "xyz".data "XYZ".data = true ∧
    matchesRLSE7 "XYZ".data = false := by
  constructor
  · decide
  · decide

/-- C7 (amended): case-insensitive equality alone is sufficient for
every field (the format pattern is never consulted for such pairs); the
format pattern only matters for pairs that are not case-insensitively
equal, where acceptance requires the pattern AND upper-case (or exact,
for the eight-digit application id) equality. -/
theorem validate_id_format_equality_first :
    (∀ f e d : List Char, eqLower e d = true → validate_id_format f e d = true) ∧
    (∀ e d : List Char, validate_id_format "release".data e d = true →
      eqLower e d = true ∨ (matchesRLSE7 d && eqUpper e d) = true) ∧
    (∀ e d : List Char, validate_id_format "business_app_id".data e d = true →
      eqLower e d = true ∨ (matchesEightDigits d && (e == d)) = true) ∧
    (∀ e d : List Char, validate_id_format "clarity_project_id".data e d = true →
      eqLower e d = true ∨ (matchesPRJ0 d && eqUpper e d) = true) ∧
    (∀ e d : List Char, validate_id_format "enterprise_release_id".data e d = true →
      eqLower e d = true ∨ (matchesYearM d && eqUpper e d) = true) := by
  refine ⟨?_, ?_, ?_, ?_, ?_⟩
  · intro f e d h; simp [validate_id_format, h]
  · intro e d h
    by_cases he : eqLower e d = true
    · exact Or.inl he
    · right
      rw [validate_id_format] at h
      rw [if_neg (by simp [he]), if_pos rfl] at h
      exact h
  · intro e d h
    by_cases he : eqLower e d = true
    · exact Or.inl he
    · right
      rw [validate_id_format] at h
      rw [if_neg (by simp [he]), if_neg (by decide), if_pos rfl] at h
      exact h
  · intro e d h
    by_cases he : eqLower e d = true
    · exact Or.inl he
    · right
      rw [validate_id_format] at h
      rw [if_neg (by simp [he]), if_neg (by decide), if_neg (by decide), if_pos rfl] at h
      exact h
  · intro e d h
    by_cases he : eqLower e d = true
    · exact Or.inl he
    · right
      rw [validate_id_format] at h
      rw [if_neg (by simp [he]), if_neg (by decide), if_neg (by decide), if_neg (by decide),
        if_pos rfl] at h
      exact h

/-- C7 witness: the sufficiency clause applied at a concrete
case-insensitively equal pair. -/
theorem validate_id_format_equality_first_witness :
    eqLower "RLSE0031115".data "rlse0031115".data = true ∧
    validate_id_format "release".data "RLSE0031115".data "rlse0031115".data = true :=
  ⟨by decide, validate_id_format_equality_first.1 _ _ _ (by decide)⟩

/-- C4: for every target, candidate list and threshold, the matcher
computes per-candidate similarity scores, reports a match iff the
maximum score reaches the threshold, returns the first candidate in
list order attaining the maximum, and returns score 0.0 with no match
(and no error) on an empty target or candidate list. -/
theorem vectorized_text_match_spec (target : List Char) (candidates : List (List Char))
    (threshold : ℚ) :
    ((target = [] ∨ candidates = []) →
      vectorized_text_match target candidates threshold = (false, 0, none)) ∧
    (target ≠ [] → candidates ≠ [] →
      (vectorized_text_match target candidates threshold).2.1
          = pyMax (candidates.map (calculate_similarity_score target)) ∧
      (∀ c ∈ candidates, calculate_similarity_score target c
          ≤ (vectorized_text_match target candidates threshold).2.1) ∧
      ((vectorized_text_match target candidates threshold).1 = true ↔
        (vectorized_text_match target candidates threshold).2.1 ≥ threshold) ∧
      ∃ i : Fin candidates.length,
        (vectorized_text_match target candidates threshold).2.2
            = some (candidates.get i) ∧
        calculate_similarity_score target (candidates.get i)
            = (vectorized_text_match target candidates threshold).2.1 ∧
        ∀ j : Fin candidates.length, (j : ℕ) < (i : ℕ) →
          calculate_similarity_score target (candidates.get j)
            ≠ (vectorized_text_match target candidates threshold).2.1) := by
  constructor
  · intro h
    rcases h with h | h <;> simp [vectorized_text_match, h]
  · intro ht hc
    have hcond : (target = [] || candidates = []) = false := by
      simp [ht, hc]
    have hne : candidates.map (calculate_similarity_score target) ≠ [] := by
      simpa using hc
    set sims := candidates.map (calculate_similarity_score target) with hsims
    have hmem : pyMax sims ∈ sims := pyMax_mem sims hne
    have hidx : pyIndex (pyMax sims) sims < sims.length := pyIndex_lt_length _ _ hmem
    have hlen : sims.length = candidates.length := by simp [hsims]
    have hidx' : pyIndex (pyMax sims) sims < candidates.length := hlen ▸ hidx
    have hval : vectorized_text_match target candidates threshold
        = (decide (pyMax sims ≥ threshold), pyMax sims,
            some (candidates.getD (pyIndex (pyMax sims) sims) [])) := by
      rw [vectorized_text_match, hcond]
      simp
    refine ⟨by rw [hval], ?_, ?_, ?_⟩
    · intro c hcmem
      rw [hval]
      exact le_pyMax sims _ (by rw [hsims]; exact List.mem_map_of_mem _ hcmem)
    · rw [hval]
      simp
    · refine ⟨⟨pyIndex (pyMax sims) sims, hidx'⟩, ?_, ?_, ?_⟩
      · rw [hval, List.getD_eq_getElem _ _ hidx']
        simp [List.get_eq_getElem]
      · have hg : sims.get ⟨pyIndex (pyMax sims) sims, hidx⟩ = pyMax sims :=
          get_pyIndex _ _ hidx
        have : calculate_similarity_score target
            (candidates.get ⟨pyIndex (pyMax sims) sims, hidx'⟩)
              = sims.get ⟨pyIndex (pyMax sims) sims, hidx⟩ := by
          simp [hsims]
        rw [hval, this, hg]
      · intro j hj
        have hjs : (j : ℕ) < sims.length := by rw [hlen]; exact j.isLt
        have hne2 : sims.get ⟨(j : ℕ), hjs⟩ ≠ pyMax sims :=
          get_ne_of_lt_pyIndex _ _ _ hjs hj
        have heq : calculate_similarity_score target (candidates.get j)
            = sims.get ⟨(j : ℕ), hjs⟩ := by
          simp [hsims]
        rw [hval, heq]
        simpa using hne2

/-- C4 witness: the spec applied at concrete inputs, discharging the
empty-input hypothesis and the non-empty hypotheses. -/
theorem vectorized_text_match_spec_witness :
    vectorized_text_match [] ["x".data] (0.8 : ℚ) = (false, 0, none) ∧
    (vectorized_text_match "abc".data ["xyz".data, "abc".data] (0.8 : ℚ)).2.1
      = pyMax (["xyz".data, "abc".data].map (calculate_similarity_score "abc".data)) :=
  ⟨(vectorized_text_match_spec [] ["x".data] 0.8).1 (Or.inl rfl),
   ((vectorized_text_match_spec "abc".data ["xyz".data, "abc".data] 0.8).2
      (by decide) (by decide)).1⟩

/-- C3: the similarity score is 0.0 when either input is empty, 1.0
when the normalized forms (trimmed, lowercased, with spaces, hyphens
and underscores removed) of two non-empty inputs are equal, and
otherwise is the Jaccard index of the character sets of the two
normalized strings; and the three example spellings of the release id
normalize identically. -/
theorem calculate_similarity_score_spec (a b : List Char) :
    ((a = [] ∨ b = []) → calculate_similarity_score a b = 0) ∧
    (a ≠ [] → b ≠ [] → normalize_text_cached a = normalize_text_cached b →
      calculate_similarity_score a b = 1) ∧
    (a ≠ [] → b ≠ [] → normalize_text_cached a ≠ normalize_text_cached b →
      calculate_similarity_score a b
        = jaccard_char_sets (normalize_text_cached a) (normalize_text_cached b)) ∧
    (normalize_text_cached "RLSE 0031115".data = normalize_text_cached "rlse-0031115".data ∧
     normalize_text_cached "rlse-0031115".data = normalize_text_cached "rlse_0031115".data) := by
  refine ⟨?_, ?_, ?_, by decide, by decide⟩
  · intro h
    rcases h with h | h <;> simp [calculate_similarity_score, h]
  · intro ha hb heq
    simp [calculate_similarity_score, ha, hb, heq]
  · intro ha hb hne
    rw [calculate_similarity_score]
    rw [if_neg (by simp [ha, hb]), if_neg hne]
    by_cases huni :
        0 < ((normalize_text_cached a).toFinset ∪ (normalize_text_cached b).toFinset).card
    · rw [if_pos huni, jaccard_char_sets]
    · exfalso
      have hcard :
          ((normalize_text_cached a).toFinset ∪ (normalize_text_cached b).toFinset).card = 0 :=
        Nat.eq_zero_of_not_pos huni
      have hempty :
          (normalize_text_cached a).toFinset ∪ (normalize_text_cached b).toFinset = ∅ :=
        Finset.card_eq_zero.mp hcard
      have hae : (normalize_text_cached a).toFinset = ∅ :=
        Finset.subset_empty.mp (hempty ▸ Finset.subset_union_left)
      have hbe : (normalize_text_cached b).toFinset = ∅ :=
        Finset.subset_empty.mp (hempty ▸ Finset.subset_union_right)
      have ha0 : normalize_text_cached a = [] := by
        simpa using hae
      have hb0 : normalize_text_cached b = [] := by
        simpa using hbe
      exact hne (ha0.trans hb0.symm)

/-- C3 witness: the spec applied at concrete inputs, discharging each
hypothesis. -/
theorem calculate_similarity_score_spec_witness :
    calculate_similarity_score [] "x".data = 0 ∧
    calculate_similarity_score "RLSE 0031115".data "rlse-0031115".data = 1 ∧
    calculate_similarity_score "ab".data "bc".data
      = jaccard_char_sets (normalize_text_cached "ab".data)
          (normalize_text_cached "bc".data) :=
  ⟨(calculate_similarity_score_spec [] "x".data).1 (Or.inl rfl),
   (calculate_similarity_score_spec "RLSE 0031115".data "rlse-0031115".data).2.1
     (by decide) (by decide) (by decide),
   (calculate_similarity_score_spec "ab".data "bc".data).2.2.1
     (by decide) (by decide) (by decide)⟩

theorem band_chain_iff (s : ℚ) (lvl : List Char)
    (hlvl : lvl =
      if s ≥ (0.9 : ℚ) then "Fully Compliant".data
      else if s ≥ COMPLIANCE_THRESHOLD then "Compliant".data
      else if s ≥ (0.4 : ℚ) then "Partially Compliant".data
      else "Non-compliant".data) :
    ((lvl = "Fully Compliant".data) ↔ (0.9 : ℚ) ≤ s) ∧
    ((lvl = "Compliant".data) ↔ ((0.6 : ℚ) ≤ s ∧ s < (0.9 : ℚ))) ∧
    ((lvl = "Partially Compliant".data) ↔ ((0.4 : ℚ) ≤ s ∧ s < (0.6 : ℚ))) ∧
    ((lvl = "Non-compliant".data) ↔ s < (0.4 : ℚ)) := by
  rw [show COMPLIANCE_THRESHOLD = (0.6 : ℚ) from rfl] at hlvl
  subst hlvl
  refine ⟨?_, ?_, ?_, ?_⟩ <;> split_ifs with h1 h2 h3
  · exact iff_of_true rfl h1
  · exact iff_of_false (by decide) (fun hh => by linarith)
  · exact iff_of_false (by decide) (fun hh => by linarith)
  · exact iff_of_false (by decide) (fun hh => by linarith)
  · exact iff_of_false (by decide) (fun hh => by linarith [hh.2])
  · exact iff_of_true rfl ⟨h2, by linarith⟩
  · exact iff_of_false (by decide) (fun hh => by linarith [hh.1])
  · exact iff_of_false (by decide) (fun hh => by linarith [hh.1])
  · exact iff_of_false (by decide) (fun hh => by linarith [hh.2])
  · exact iff_of_false (by decide) (fun hh => by linarith [hh.2])
  · exact iff_of_true rfl ⟨h3, by linarith⟩
  · exact iff_of_false (by decide) (fun hh => by linarith [hh.1])
  · exact iff_of_false (by decide) (fun hh => by linarith)
  · exact iff_of_false (by decide) (fun hh => by linarith)
  · exact iff_of_false (by decide) (fun hh => by linarith)
  · exact iff_of_true rfl (by linarith)

/-- C2: for every non-empty result list, the overall score is the
unweighted arithmetic mean of the individual scores and the compliance
level is banded exactly at 0.9, 0.6 (the global threshold) and 0.4; in
particular scores 1.0, 0.0, 0.5, 1.0 give overall score 0.625 and
level Compliant, and the bands hold exactly at 0.6 and 0.9. -/
theorem overall_score_mean_and_banding :
    (∀ results : List ComplianceResult, results ≠ [] →
      (calculate_overall_score results).overall_score
        = (results.map (fun r => r.score)).sum / (results.length : ℚ) ∧
      ((calculate_overall_score results).compliance_level = "Fully Compliant".data ↔
        (0.9 : ℚ) ≤ (calculate_overall_score results).overall_score) ∧
      ((calculate_overall_score results).compliance_level = "Compliant".data ↔
        ((0.6 : ℚ) ≤ (calculate_overall_score results).overall_score ∧
          (calculate_overall_score results).overall_score < (0.9 : ℚ))) ∧
      ((calculate_overall_score results).compliance_level = "Partially Compliant".data ↔
        ((0.4 : ℚ) ≤ (calculate_overall_score results).overall_score ∧
          (calculate_overall_score results).overall_score < (0.6 : ℚ))) ∧
      ((calculate_overall_score results).compliance_level = "Non-compliant".data ↔
        (calculate_overall_score results).overall_score < (0.4 : ℚ))) ∧
    COMPLIANCE_THRESHOLD = (0.6 : ℚ) ∧
    (calculate_overall_score
      [⟨"c1".data, true, 1, []⟩, ⟨"c2".data, false, 0, []⟩,
       ⟨"c3".data, true, 0.5, []⟩, ⟨"c4".data, true, 1, []⟩]).overall_score = (0.625 : ℚ) ∧
    (calculate_overall_score
      [⟨"c1".data, true, 1, []⟩, ⟨"c2".data, false, 0, []⟩,
       ⟨"c3".data, true, 0.5, []⟩, ⟨"c4".data, true, 1, []⟩]).compliance_level
      = "Compliant".data ∧
    (calculate_overall_score [⟨"c".data, true, 0.6, []⟩]).compliance_level
      = "Compliant".data ∧
    (calculate_overall_score [⟨"c".data, true, 0.9, []⟩]).compliance_level
      = "Fully Compliant".data := by
  refine ⟨?_, rfl, ?_, ?_, ?_, ?_⟩
  · intro results h
    have hs : (calculate_overall_score results).overall_score
        = (results.map (fun r => r.score)).sum / (results.length : ℚ) := by
      simp [calculate_overall_score, h]
    have hlvl : (calculate_overall_score results).compliance_level =
        if (calculate_overall_score results).overall_score ≥ (0.9 : ℚ) then
          "Fully Compliant".data
        else if (calculate_overall_score results).overall_score ≥ COMPLIANCE_THRESHOLD then
          "Compliant".data
        else if (calculate_overall_score results).overall_score ≥ (0.4 : ℚ) then
          "Partially Compliant".data
        else "Non-compliant".data := by
      rw [hs]
      simp [calculate_overall_score, h]
    exact ⟨hs, band_chain_iff _ _ hlvl⟩
  · norm_num [calculate_overall_score, List.cons_ne_nil]
  · norm_num [calculate_overall_score, COMPLIANCE_THRESHOLD, List.cons_ne_nil]
  · norm_num [calculate_overall_score, COMPLIANCE_THRESHOLD, List.cons_ne_nil]
  · norm_num [calculate_overall_score, COMPLIANCE_THRESHOLD, List.cons_ne_nil]

/-- C2 witness: the mean and banding applied at a concrete non-empty
list. -/
theorem overall_score_mean_and_banding_witness :
    ([⟨"c".data, true, 1, []⟩] : List ComplianceResult) ≠ [] ∧
    (calculate_overall_score [⟨"c".data, true, 1, []⟩]).overall_score
      = ([(⟨"c".data, true, 1, []⟩ : ComplianceResult)].map (fun r => r.score)).sum
          / (([(⟨"c".data, true, 1, []⟩ : ComplianceResult)].length : ℚ)) :=
  ⟨by decide,
   (overall_score_mean_and_banding.1 [⟨"c".data, true, 1, []⟩] (by decide)).1⟩

theorem pyDict_foldl_apply {α β : Type} [DecidableEq α] (l : List (α × β))
    (m : α → Option β) (k : α) :
    (l.foldl (fun m p => fun x => if x = p.1 then some p.2 else m x) m) k
      = (match (l.filter (fun p => k = p.1)).getLast? with
         | some p => some p.2
         | none => m k) := by
  induction l generalizing m with
  | nil => rfl
  | cons p t ih =>
    rw [List.foldl_cons, ih]
    by_cases hk : k = p.1
    · rw [List.filter_cons, if_pos (by simpa using hk)]
      cases hft : t.filter (fun q => k = q.1) with
      | nil => simp [hk]
      | cons q qs =>
        cases hgl : (q :: qs).getLast? with
        | none => simp at hgl
        | some z => simp [hk, hgl]
    · rw [List.filter_cons, if_neg (by simpa using hk)]
      cases hft : t.filter (fun q => k = q.1) with
      | nil => simp [hk]
      | cons q qs =>
        cases hgl : (q :: qs).getLast? with
        | none => simp at hgl
        | some z => simp [hk, hgl]

theorem pyDict_apply {α β : Type} [DecidableEq α] (l : List (α × β)) (k : α) :
    pyDict l k
      = (match (l.filter (fun p => k = p.1)).getLast? with
         | some p => some p.2
         | none => none) :=
  pyDict_foldl_apply l (fun _ => none) k

theorem filter_key_length_le_one {α β : Type} [DecidableEq α] (l : List (α × β))
    (hn : (l.map Prod.fst).Nodup) (k : α) :
    (l.filter (fun p => k = p.1)).length ≤ 1 := by
  induction l with
  | nil => simp
  | cons p t ih =>
    rw [List.map_cons, List.nodup_cons] at hn
    rw [List.filter_cons]
    by_cases hk : k = p.1
    · rw [if_pos (by simpa using hk)]
      have hft : t.filter (fun q => k = q.1) = [] := by
        refine List.eq_nil_iff_forall_not_mem.mpr ?_
        intro q hq
        obtain ⟨hqt, hq1⟩ := List.mem_filter.mp hq
        exact hn.1 (hk ▸ (of_decide_eq_true hq1) ▸ List.mem_map_of_mem Prod.fst hqt)
      simp [hft]
    · rw [if_neg (by simpa using hk)]
      exact ih hn.2

theorem pyDict_perm {α β : Type} [DecidableEq α] {l1 l2 : List (α × β)} (hp : l1.Perm l2)
    (hn : (l1.map Prod.fst).Nodup) (k : α) : pyDict l1 k = pyDict l2 k := by
  rw [pyDict_apply, pyDict_apply]
  have hpf := hp.filter (fun p => k = p.1)
  have hle := filter_key_length_le_one l1 hn k
  have heq : l1.filter (fun p => k = p.1) = l2.filter (fun p => k = p.1) := by
    rcases Nat.le_one_iff_eq_zero_or_eq_one.mp hle with h0 | h1
    · have hz : l1.filter (fun p => k = p.1) = [] := List.length_eq_zero.mp h0
      rw [hz] at hpf ⊢
      exact (hpf.symm.eq_nil).symm
    · obtain ⟨a, ha⟩ := List.length_eq_one.mp h1
      rw [ha] at hpf ⊢
      exact List.singleton_perm.mp hpf
  rw [heq]

/-- C1 counterexample: two distinct CheckResults sharing a check name
form identical two-element sets in either order, yet the per-check
score dict of the aggregated report differs between the two orders
(the dict comprehension is last-write-wins), so the report is not
invariant under every permutation. -/
theorem calculate_overall_score_not_perm_invariant :
    ([⟨"a".data, true, 1, []⟩, ⟨"a".data, false, 0, []⟩] : List ComplianceResult).Perm
      [⟨"a".data, false, 0, []⟩, ⟨"a".data, true, 1, []⟩] ∧
    (⟨"a".data, true, 1, []⟩ : ComplianceResult) ≠ ⟨"a".data, false, 0, []⟩ ∧
    (calculate_overall_score
        [⟨"a".data, true, 1, []⟩, ⟨"a".data, false, 0, []⟩]).individual_scores.map
          (fun l => pyDict l "a".data)
      ≠ (calculate_overall_score
          [⟨"a".data, false, 0, []⟩, ⟨"a".data, true, 1, []⟩]).individual_scores.map
          (fun l => pyDict l "a".data) :=
  ⟨List.Perm.swap _ _ _, by decide, by decide⟩

/-- C1 (amended): for result lists whose check names are pairwise
distinct, the aggregated report of `_calculate_overall_score` is
invariant under every permutation: overall score, pass rate, counts and
compliance level are equal, and the per-check score dict denotes the
same mapping. -/
theorem calculate_overall_score_perm_invariant (l1 l2 : List ComplianceResult)
    (hp : l1.Perm l2) (hn : (l1.map (fun r => r.check_name)).Nodup) :
    (calculate_overall_score l1).overall_score = (calculate_overall_score l2).overall_score ∧
    (calculate_overall_score l1).pass_rate = (calculate_overall_score l2).pass_rate ∧
    (calculate_overall_score l1).passed_checks = (calculate_overall_score l2).passed_checks ∧
    (calculate_overall_score l1).total_checks = (calculate_overall_score l2).total_checks ∧
    (calculate_overall_score l1).compliance_level
      = (calculate_overall_score l2).compliance_level ∧
    ∀ k, (calculate_overall_score l1).individual_scores.map (fun l => pyDict l k)
        = (calculate_overall_score l2).individual_scores.map (fun l => pyDict l k) := by
  by_cases h1 : l1 = []
  · subst h1
    have h2 : l2 = [] := hp.symm.eq_nil
    subst h2
    exact ⟨rfl, rfl, rfl, rfl, rfl, fun _ => rfl⟩
  · have h2 : l2 ≠ [] := by
      intro hh
      subst hh
      exact h1 hp.eq_nil
    have hsum : (l1.map (fun r => r.score)).sum = (l2.map (fun r => r.score)).sum :=
      (hp.map _).sum_eq
    have hlen : l1.length = l2.length := hp.length_eq
    have hfil : (l1.filter (fun r => r.passed)).length
        = (l2.filter (fun r => r.passed)).length := (hp.filter _).length_eq
    have hpairs : (l1.map (fun r => (r.check_name, r.score))).Perm
        (l2.map (fun r => (r.check_name, r.score))) := hp.map _
    have hkeys : ((l1.map (fun r => (r.check_name, r.score))).map Prod.fst).Nodup := by
      rw [List.map_map]
      exact hn
    have hos : (calculate_overall_score l1).overall_score
        = (calculate_overall_score l2).overall_score := by
      simp [calculate_overall_score, h1, h2, hsum, hlen]
    refine ⟨hos, ?_, ?_, ?_, ?_, ?_⟩
    · simp [calculate_overall_score, h1, h2, hfil, hlen]
    · simp [calculate_overall_score, h1, h2, hfil]
    · simp [calculate_overall_score, h1, h2, hlen]
    · have hl1 : (calculate_overall_score l1).compliance_level =
          if (calculate_overall_score l1).overall_score ≥ (0.9 : ℚ) then
            "Fully Compliant".data
          else if (calculate_overall_score l1).overall_score ≥ COMPLIANCE_THRESHOLD then
            "Compliant".data
          else if (calculate_overall_score l1).overall_score ≥ (0.4 : ℚ) then
            "Partially Compliant".data
          else "Non-compliant".data := by
        simp [calculate_overall_score, h1]
      have hl2 : (calculate_overall_score l2).compliance_level =
          if (calculate_overall_score l2).overall_score ≥ (0.9 : ℚ) then
            "Fully Compliant".data
          else if (calculate_overall_score l2).overall_score ≥ COMPLIANCE_THRESHOLD then
            "Compliant".data
          else if (calculate_overall_score l2).overall_score ≥ (0.4 : ℚ) then
            "Partially Compliant".data
          else "Non-compliant".data := by
        simp [calculate_overall_score, h2]
      rw [hl1, hl2, hos]
    · intro k
      have hd : pyDict (l1.map (fun r => (r.check_name, r.score))) k
          = pyDict (l2.map (fun r => (r.check_name, r.score))) k :=
        pyDict_perm hpairs hkeys k
      simp [calculate_overall_score, h1, h2, hd]

/-- C1 witness: the invariance applied to a concrete two-element swap
with distinct check names. -/
theorem calculate_overall_score_perm_invariant_witness :
    (calculate_overall_score
        [⟨"a".data, true, 1, []⟩, ⟨"b".data, false, 0, []⟩]).overall_score
      = (calculate_overall_score
          [⟨"b".data, false, 0, []⟩, ⟨"a".data, true, 1, []⟩]).overall_score :=
  (calculate_overall_score_perm_invariant _ _ (List.Perm.swap _ _ _) (by decide)).1

theorem v2_first_page_score_eq (ex : V2ExcelData) (fp : V2FirstPageData) :
    (v2_check_first_page_compliance ex fp).score
      = ((v2_check_first_page_compliance ex fp).match_count : ℚ) / 6 := by
  simp [v2_check_first_page_compliance, v2_field_mappings]

theorem v2_first_page_passed_iff (ex : V2ExcelData) (fp : V2FirstPageData) :
    (v2_check_first_page_compliance ex fp).passed = true ↔
      ((v2_check_first_page_compliance ex fp).match_count : ℚ) / 6 ≥ (0.6 : ℚ) := by
  have hp : (v2_check_first_page_compliance ex fp).passed
      = decide ((v2_check_first_page_compliance ex fp).score ≥ (0.6 : ℚ)) := rfl
  rw [hp, decide_eq_true_eq, v2_first_page_score_eq]

/-- C5 counterexample: in the Version2 first-page check, four matching
fields out of six (with a checked Project Name field explicitly
mismatching) give score 4/6 which passes the 0.6 gate, so the check
can pass although not every checked field matched - the claimed
pass-iff-all-fields-match semantics does not hold for this checker. -/
theorem v2_first_page_passes_without_all_fields :
    (v2_check_first_page_compliance
      ⟨some "Banking App".data, some "12345678".data, some "PRJ00015".data,
        some "proj".data, some "RLSE0031115".data, some "2025.M08".data⟩
      ⟨some "Banking App".data, some "12345678".data, some "PRJ00015".data,
        some "other".data, some "RLSE0031115".data, some "bad".data⟩).match_count = 4 ∧
    ("Project Name".data, "mismatch".data) ∈
      (v2_check_first_page_compliance
        ⟨some "Banking App".data, some "12345678".data, some "PRJ00015".data,
          some "proj".data, some "RLSE0031115".data, some "2025.M08".data⟩
        ⟨some "Banking App".data, some "12345678".data, some "PRJ00015".data,
          some "other".data, some "RLSE0031115".data, some "bad".data⟩).field_results ∧
    (v2_check_first_page_compliance
      ⟨some "Banking App".data, some "12345678".data, some "PRJ00015".data,
        some "proj".data, some "RLSE0031115".data, some "2025.M08".data⟩
      ⟨some "Banking App".data, some "12345678".data, some "PRJ00015".data,
        some "other".data, some "RLSE0031115".data, some "bad".data⟩).passed = true := by
  refine ⟨by decide, by decide, ?_⟩
  rw [v2_first_page_passed_iff]
  rw [show (v2_check_first_page_compliance
      ⟨some "Banking App".data, some "12345678".data, some "PRJ00015".data,
        some "proj".data, some "RLSE0031115".data, some "2025.M08".data⟩
      ⟨some "Banking App".data, some "12345678".data, some "PRJ00015".data,
        some "other".data, some "RLSE0031115".data, some "bad".data⟩).match_count = 4
    from by decide]
  norm_num

/-- C5 (amended): for the modular DOCX and PPTX checkers, whenever at
least one field is checked, the first-page (first-slide) result's score
is the arithmetic mean of the per-field similarity scores and the
passed flag is true iff every checked field matched; in particular with
three exact matches and one total failure the score is 0.75 but passed
is false. The Version2 first-page checker instead counts binary
matches over six fixed fields, scores matches over six, and passes iff
that score reaches 0.6. -/
theorem first_page_mean_score_and_all_pass :
    (∀ (excel : ExcelFields) (fp : FirstPageData),
      first_page_field_checks excel fp ≠ [] →
      (check_first_page_compliance excel fp).score
        = ((first_page_field_checks excel fp).map (fun c => c.score)).sum
            / ((first_page_field_checks excel fp).length : ℚ) ∧
      ((check_first_page_compliance excel fp).passed = true ↔
        ∀ c ∈ first_page_field_checks excel fp, c.passed = true)) ∧
    (∀ (excel : ExcelFields) (fp : FirstPageData),
      first_page_field_checks excel fp ≠ [] →
      (check_first_slide_compliance true excel fp).score
        = ((first_page_field_checks excel fp).map (fun c => c.score)).sum
            / ((first_page_field_checks excel fp).length : ℚ) ∧
      ((check_first_slide_compliance true excel fp).passed = true ↔
        ∀ c ∈ first_page_field_checks excel fp, c.passed = true)) ∧
    ((check_first_page_compliance
        ⟨[some "12345678".data], [some "RLSE0031115".data], [some "projx".data],
          [some "TSK123".data]⟩
        ⟨some "12345678".data, some "RLSE0031115".data, some "projx".data, none⟩).score
      = (0.75 : ℚ) ∧
     (check_first_page_compliance
        ⟨[some "12345678".data], [some "RLSE0031115".data], [some "projx".data],
          [some "TSK123".data]⟩
        ⟨some "12345678".data, some "RLSE0031115".data, some "projx".data, none⟩).passed
      = false) ∧
    (∀ (ex : V2ExcelData) (fp : V2FirstPageData),
      (v2_check_first_page_compliance ex fp).score
        = ((v2_check_first_page_compliance ex fp).match_count : ℚ) / 6 ∧
      ((v2_check_first_page_compliance ex fp).passed = true ↔
        ((v2_check_first_page_compliance ex fp).match_count : ℚ) / 6 ≥ (0.6 : ℚ))) := by
  refine ⟨?_, ?_, ⟨?_, ?_⟩, ?_⟩
  · intro excel fp h
    constructor
    · simp [check_first_page_compliance, h]
    · rw [show (check_first_page_compliance excel fp).passed
          = (first_page_field_checks excel fp).all (fun c => c.passed) from by
        simp [check_first_page_compliance, h]]
      exact List.all_eq_true
  · intro excel fp h
    constructor
    · simp [check_first_slide_compliance, h]
    · rw [show (check_first_slide_compliance true excel fp).passed
          = (first_page_field_checks excel fp).all (fun c => c.passed) from by
        simp [check_first_slide_compliance, h]]
      exact List.all_eq_true
  · have hne : first_page_field_checks
        ⟨[some "12345678".data], [some "RLSE0031115".data], [some "projx".data],
          [some "TSK123".data]⟩
        ⟨some "12345678".data, some "RLSE0031115".data, some "projx".data, none⟩ ≠ [] := by
      decide
    have hs : (first_page_field_checks
        ⟨[some "12345678".data], [some "RLSE0031115".data], [some "projx".data],
          [some "TSK123".data]⟩
        ⟨some "12345678".data, some "RLSE0031115".data, some "projx".data, none⟩).map
          (fun c => c.score) = [1, 1, 1, 0] := by
      decide
    have hl : (first_page_field_checks
        ⟨[some "12345678".data], [some "RLSE0031115".data], [some "projx".data],
          [some "TSK123".data]⟩
        ⟨some "12345678".data, some "RLSE0031115".data, some "projx".data, none⟩).length
        = 4 := by
      decide
    rw [show (check_first_page_compliance
        ⟨[some "12345678".data], [some "RLSE0031115".data], [some "projx".data],
          [some "TSK123".data]⟩
        ⟨some "12345678".data, some "RLSE0031115".data, some "projx".data, none⟩).score
      = ((first_page_field_checks
          ⟨[some "12345678".data], [some "RLSE0031115".data], [some "projx".data],
            [some "TSK123".data]⟩
          ⟨some "12345678".data, some "RLSE0031115".data, some "projx".data, none⟩).map
            (fun c => c.score)).sum
          / ((first_page_field_checks
              ⟨[some "12345678".data], [some "RLSE0031115".data], [some "projx".data],
                [some "TSK123".data]⟩
              ⟨some "12345678".data, some "RLSE0031115".data, some "projx".data,
                none⟩).length : ℚ) from by
      simp [check_first_page_compliance, hne]]
    rw [hs, hl]
    norm_num
  · have hne : first_page_field_checks
        ⟨[some "12345678".data], [some "RLSE0031115".data], [some "projx".data],
          [some "TSK123".data]⟩
        ⟨some "12345678".data, some "RLSE0031115".data, some "projx".data, none⟩ ≠ [] := by
      decide
    rw [show (check_first_page_compliance
        ⟨[some "12345678".data], [some "RLSE0031115".data], [some "projx".data],
          [some "TSK123".data]⟩
        ⟨some "12345678".data, some "RLSE0031115".data, some "projx".data, none⟩).passed
      = (first_page_field_checks
          ⟨[some "12345678".data], [some "RLSE0031115".data], [some "projx".data],
            [some "TSK123".data]⟩
          ⟨some "12345678".data, some "RLSE0031115".data, some "projx".data, none⟩).all
            (fun c => c.passed) from by
      simp [check_first_page_compliance, hne]]
    refine List.all_eq_false.mpr
      ⟨check_field_compliance "task_id".data none [some "TSK123".data], by decide, by decide⟩
  · intro ex fp
    exact ⟨v2_first_page_score_eq ex fp, v2_first_page_passed_iff ex fp⟩

/-- C5 witness: the mean-and-AND property applied to a concrete record
with one checked field. -/
theorem first_page_mean_score_and_all_pass_witness :
    first_page_field_checks ⟨[some "x".data], [], [], []⟩ ⟨some "x".data, none, none, none⟩
      ≠ [] ∧
    ((check_first_page_compliance ⟨[some "x".data], [], [], []⟩
        ⟨some "x".data, none, none, none⟩).passed = true ↔
      ∀ c ∈ first_page_field_checks ⟨[some "x".data], [], [], []⟩
          ⟨some "x".data, none, none, none⟩, c.passed = true) :=
  ⟨by decide,
   (first_page_mean_score_and_all_pass.1 ⟨[some "x".data], [], [], []⟩
      ⟨some "x".data, none, none, none⟩ (by decide)).2⟩

theorem toc_percentage_eq (text : List Char) :
    (check_table_of_contents text).toc_compliance_percentage
      = ((check_table_of_contents text).found_sections_count : ℚ)
          / ((check_table_of_contents text).total_sections_count : ℚ) * 100 := rfl

theorem v2_toc_score_eq (text : List Char) :
    (v2_check_table_of_contents_compliance (check_table_of_contents text)).score
      = ((check_table_of_contents text).found_sections_count : ℚ)
          / ((check_table_of_contents text).total_sections_count : ℚ) := by
  have h100 : (v2_check_table_of_contents_compliance (check_table_of_contents text)).score
      = (check_table_of_contents text).toc_compliance_percentage / 100 := rfl
  have htot : (check_table_of_contents text).total_sections_count = 5 := rfl
  rw [h100, toc_percentage_eq, htot]
  push_cast
  ring

/-- C8 counterexample: a document containing all five required section
markers but no literal table-of-contents header gets score 1.0 yet is
not passed, refuting pass-iff-score-at-least-0.6; passing additionally
requires the TOC header flag. -/
theorem toc_full_score_without_header_not_passed :
    (check_table_of_contents
      "3.3 NFR 3.4 In-Scope 3.5 Out of Scope 4.1 Test Execution 12. Milestones".data).found_sections_count = 5 ∧
    (check_table_of_contents
      "3.3 NFR 3.4 In-Scope 3.5 Out of Scope 4.1 Test Execution 12. Milestones".data).has_table_of_contents = false ∧
    (v2_check_table_of_contents_compliance (check_table_of_contents
      "3.3 NFR 3.4 In-Scope 3.5 Out of Scope 4.1 Test Execution 12. Milestones".data)).score = 1 ∧
    (v2_check_table_of_contents_compliance (check_table_of_contents
      "3.3 NFR 3.4 In-Scope 3.5 Out of Scope 4.1 Test Execution 12. Milestones".data)).passed = false := by
  refine ⟨by decide, by decide, ?_, by decide⟩
  rw [v2_toc_score_eq]
  rw [show (check_table_of_contents
      "3.3 NFR 3.4 In-Scope 3.5 Out of Scope 4.1 Test Execution 12. Milestones".data).found_sections_count = 5 from by decide]
  rw [show (check_table_of_contents
      "3.3 NFR 3.4 In-Scope 3.5 Out of Scope 4.1 Test Execution 12. Milestones".data).total_sections_count = 5 from by decide]
  norm_num

/-- C8 (amended): the Version2 TOC check's score is the number of
required markers found divided by the total, but it passes iff the
document also has the TOC header AND the score is at least 0.6; the
modular docx TOC check instead weighs the TOC flag 0.6 and the scope
flag 0.4 and passes iff both are present (score at least 0.8). -/
theorem toc_score_and_pass_rule :
    (∀ text : List Char,
      (v2_check_table_of_contents_compliance (check_table_of_contents text)).score
        = ((check_table_of_contents text).found_sections_count : ℚ)
            / ((check_table_of_contents text).total_sections_count : ℚ) ∧
      ((v2_check_table_of_contents_compliance (check_table_of_contents text)).passed = true ↔
        ((check_table_of_contents text).has_table_of_contents = true ∧
          (v2_check_table_of_contents_compliance (check_table_of_contents text)).score
            ≥ (0.6 : ℚ)))) ∧
    (∀ has_toc has_scope : Bool,
      (docx_check_table_of_contents_compliance has_toc has_scope).score
        = (if has_toc then (0.6 : ℚ) else 0) + (if has_scope then (0.4 : ℚ) else 0) ∧
      ((docx_check_table_of_contents_compliance has_toc has_scope).passed = true ↔
        (has_toc = true ∧ has_scope = true))) := by
  constructor
  · intro text
    refine ⟨v2_toc_score_eq text, ?_⟩
    have hp : (v2_check_table_of_contents_compliance (check_table_of_contents text)).passed
        = ((check_table_of_contents text).has_table_of_contents &&
            decide ((v2_check_table_of_contents_compliance
              (check_table_of_contents text)).score ≥ (0.6 : ℚ))) := rfl
    rw [hp]
    simp [Bool.and_eq_true, decide_eq_true_eq]
  · intro has_toc has_scope
    constructor
    · simp [docx_check_table_of_contents_compliance]
    · cases has_toc <;> cases has_scope <;>
        simp [docx_check_table_of_contents_compliance] <;> norm_num

/-- C9: at a document whose milestones table contains an
implementation date, the table scan would collect the normalized date,
but `_extract_dates_from_milestones_table` still returns the empty
string (its `dates` is a str and `dates.append` raises an
AttributeError that the except swallows), and
`_extract_implementation_dates_enhanced` returns the repr string of
the list instead of the list itself - the merged, de-duplicated date
list promised by the claim and by the function's own `List[str]`
annotation is never returned. -/
theorem extract_implementation_dates_drops_table_dates :
    collect_table_dates [[["Implementation Date".data, "08/11/2025".data]]]
      = ["8/11/2025".data] ∧
    extract_dates_from_milestones_table [[["Implementation Date".data, "08/11/2025".data]]]
      = [] ∧
    extract_implementation_dates_enhanced []
      [[["Implementation Date".data, "08/11/2025".data]]] = "[]".data :=
  ⟨by decide, by decide, by decide⟩

theorem dropWhile_idem {α : Type} (p : α → Bool) (l : List α) :
    (l.dropWhile p).dropWhile p = l.dropWhile p := by
  induction l with
  | nil => rfl
  | cons c cs ih =>
    by_cases h : p c
    · simp [List.dropWhile_cons, h, ih]
    · simp [List.dropWhile_cons, h]

theorem dropWhile_eq_self_of_head {α : Type} (p : α → Bool) (c : α) (cs : List α)
    (h : p c = false) : (c :: cs).dropWhile p = c :: cs := by
  simp [List.dropWhile_cons, h]

theorem getLast?_dropWhile {α : Type} (p : α → Bool) (l : List α)
    (h : l.dropWhile p ≠ []) : (l.dropWhile p).getLast? = l.getLast? := by
  induction l with
  | nil => exact absurd rfl h
  | cons c cs ih =>
    by_cases hc : p c
    · have hdw : (c :: cs).dropWhile p = cs.dropWhile p := by simp [List.dropWhile_cons, hc]
      rw [hdw] at h ⊢
      cases cs with
      | nil => exact absurd rfl h
      | cons d ds => rw [ih h, List.getLast?_cons_cons]
    · rw [dropWhile_eq_self_of_head p c cs (by simpa using hc)]

theorem head?_dropWhile {α : Type} (p : α → Bool) (l : List α) (c : α)
    (h : (l.dropWhile p).head? = some c) : p c = false := by
  induction l with
  | nil => simp at h
  | cons d ds ih =>
    by_cases hd : p d
    · have hdw : (d :: ds).dropWhile p = ds.dropWhile p := by simp [List.dropWhile_cons, hd]
      rw [hdw] at h
      exact ih h
    · rw [dropWhile_eq_self_of_head p d ds (by simpa using hd)] at h
      have : d = c := by simpa using h
      subst this
      simpa using hd

theorem pyStrip_eq_self (t : List Char)
    (h1 : ∀ c, t.head? = some c → pyWhitespaceChar c = false)
    (h2 : ∀ c, t.getLast? = some c → pyWhitespaceChar c = false) : pyStrip t = t := by
  cases t with
  | nil => rfl
  | cons c cs =>
    have hc : pyWhitespaceChar c = false := h1 c rfl
    rw [pyStrip, dropWhile_eq_self_of_head _ c cs hc]
    cases hgl : (c :: cs).getLast? with
    | none => simp at hgl
    | some z =>
      have hz : pyWhitespaceChar z = false := h2 z hgl
      have hrev : (c :: cs).reverse.head? = some z := by rw [List.head?_reverse]; exact hgl
      obtain ⟨rs, hrs⟩ : ∃ rs, (c :: cs).reverse = z :: rs := by
        cases hr : (c :: cs).reverse with
        | nil => rw [hr] at hrev; simp at hrev
        | cons a as =>
          rw [hr] at hrev
          have ha : a = z := by simpa using hrev
          exact ⟨as, by rw [ha]⟩
      rw [hrs, dropWhile_eq_self_of_head _ z rs hz, ← hrs, List.reverse_reverse]

theorem pyStrip_head?_not_ws (s : List Char) (c : Char)
    (h : (pyStrip s).head? = some c) : pyWhitespaceChar c = false := by
  rw [pyStrip, List.head?_reverse] at h
  have hne : (s.dropWhile pyWhitespaceChar).reverse.dropWhile pyWhitespaceChar ≠ [] := by
    intro hh
    rw [hh] at h
    simp at h
  rw [getLast?_dropWhile _ _ hne, List.getLast?_reverse] at h
  exact head?_dropWhile _ s c h

theorem pyStrip_getLast?_not_ws (s : List Char) (c : Char)
    (h : (pyStrip s).getLast? = some c) : pyWhitespaceChar c = false := by
  rw [pyStrip, List.getLast?_reverse] at h
  exact head?_dropWhile _ _ c h

theorem pyStrip_idem (s : List Char) : pyStrip (pyStrip s) = pyStrip s :=
  pyStrip_eq_self (pyStrip s) (pyStrip_head?_not_ws s) (pyStrip_getLast?_not_ws s)

theorem splitDigits_some (n : ℕ) (s d r : List Char)
    (h : splitDigits n s = some (d, r)) :
    d.length = n ∧ d.all Char.isDigit = true := by
  rw [splitDigits] at h
  split_ifs at h with hc
  have hp := Option.some.inj h
  have hd : s.take n = d := congrArg Prod.fst hp
  subst hd
  simpa using hc

theorem parseMDYAt_shape (mLen dLen : ℕ) (s m d y : List Char) (k : ℕ)
    (h : parseMDYAt mLen dLen s = some (m, d, y, k)) :
    m.length = mLen ∧ m.all Char.isDigit = true ∧ d.length = dLen ∧
      d.all Char.isDigit = true ∧ y.length = 4 ∧ y.all Char.isDigit = true := by
  rw [parseMDYAt] at h
  cases h1 : splitDigits mLen s with
  | none => simp [h1] at h
  | some p1 =>
    obtain ⟨m1, r1⟩ := p1
    simp only [h1] at h
    cases h2 : expectSlash r1 with
    | none => simp [h2] at h
    | some r2 =>
      simp only [h2] at h
      cases h3 : splitDigits dLen r2 with
      | none => simp [h3] at h
      | some p2 =>
        obtain ⟨d1, r3⟩ := p2
        simp only [h3] at h
        cases h4 : expectSlash r3 with
        | none => simp [h4] at h
        | some r4 =>
          simp only [h4] at h
          cases h5 : splitDigits 4 r4 with
          | none => simp [h5] at h
          | some p3 =>
            obtain ⟨y1, r5⟩ := p3
            simp only [h5] at h
            have hinj := Option.some.inj h
            have hm : m1 = m := congrArg (fun q => q.1) hinj
            have hd : d1 = d := congrArg (fun q => q.2.1) hinj
            have hy : y1 = y := congrArg (fun q => q.2.2.1) hinj
            subst hm; subst hd; subst hy
            obtain ⟨ha1, ha2⟩ := splitDigits_some _ _ _ _ h1
            obtain ⟨hb1, hb2⟩ := splitDigits_some _ _ _ _ h3
            obtain ⟨hc1, hc2⟩ := splitDigits_some _ _ _ _ h5
            exact ⟨ha1, ha2, hb1, hb2, hc1, hc2⟩

theorem parseMDY_shape (s m d y : List Char) (k : ℕ)
    (h : parseMDY s = some (m, d, y, k)) :
    (m.length = 1 ∨ m.length = 2) ∧ m.all Char.isDigit = true ∧
      (d.length = 1 ∨ d.length = 2) ∧ d.all Char.isDigit = true ∧
      y.length = 4 ∧ y.all Char.isDigit = true := by
  rw [parseMDY] at h
  cases h1 : parseMDYAt 2 2 s with
  | some r =>
    simp only [h1] at h
    have hr : r = (m, d, y, k) := Option.some.inj h
    subst hr
    obtain ⟨a1, a2, a3, a4, a5, a6⟩ := parseMDYAt_shape _ _ _ _ _ _ _ h1
    exact ⟨Or.inr a1, a2, Or.inr a3, a4, a5, a6⟩
  | none =>
    simp only [h1] at h
    cases h2 : parseMDYAt 2 1 s with
    | some r =>
      simp only [h2] at h
      have hr : r = (m, d, y, k) := Option.some.inj h
      subst hr
      obtain ⟨a1, a2, a3, a4, a5, a6⟩ := parseMDYAt_shape _ _ _ _ _ _ _ h2
      exact ⟨Or.inr a1, a2, Or.inl a3, a4, a5, a6⟩
    | none =>
      simp only [h2] at h
      cases h3 : parseMDYAt 1 2 s with
      | some r =>
        simp only [h3] at h
        have hr : r = (m, d, y, k) := Option.some.inj h
        subst hr
        obtain ⟨a1, a2, a3, a4, a5, a6⟩ := parseMDYAt_shape _ _ _ _ _ _ _ h3
        exact ⟨Or.inl a1, a2, Or.inr a3, a4, a5, a6⟩
      | none =>
        simp only [h3] at h
        obtain ⟨a1, a2, a3, a4, a5, a6⟩ := parseMDYAt_shape _ _ _ _ _ _ _ h
        exact ⟨Or.inl a1, a2, Or.inl a3, a4, a5, a6⟩

theorem pyIntStr_ne_nil (s : List Char) : pyIntStr s ≠ [] := by
  rw [pyIntStr]
  split_ifs with h
  · simp
  · exact h

theorem pyIntStr_all_digits (s : List Char) (h : s.all Char.isDigit = true) :
    (pyIntStr s).all Char.isDigit = true := by
  rw [pyIntStr]
  split_ifs with hz
  · decide
  · rw [List.all_eq_true] at h ⊢
    intro c hcmem
    exact h c ((List.dropWhile_sublist _).subset hcmem)

theorem pyIntStr_length_le (s : List Char) (h : s ≠ []) :
    (pyIntStr s).length ≤ s.length := by
  rw [pyIntStr]
  split_ifs with hz
  · show 1 ≤ s.length
    exact Nat.one_le_iff_ne_zero.mpr (fun hh => h (List.length_eq_zero.mp hh))
  · exact (List.dropWhile_sublist _).length_le

theorem pyIntStr_idem (s : List Char) : pyIntStr (pyIntStr s) = pyIntStr s := by
  by_cases h : s.dropWhile (fun c => c = '0') = []
  · have hs : pyIntStr s = ['0'] := by rw [pyIntStr, if_pos h]
    rw [hs]
    decide
  · have hs : pyIntStr s = s.dropWhile (fun c => c = '0') := by rw [pyIntStr, if_neg h]
    rw [hs, pyIntStr, dropWhile_idem, if_neg h]

theorem not_ws_of_digit (c : Char) (h : c.isDigit = true) : pyWhitespaceChar c = false := by
  rw [pyWhitespaceChar]
  by_contra hc
  have hc2 : (c = ' ' || c = '\t' || c = '\n' || c = '\r' || c = '\x0b' || c = '\x0c')
      = true := by
    cases hb : (c = ' ' || c = '\t' || c = '\n' || c = '\r' || c = '\x0b' || c = '\x0c')
    · exact absurd hb hc
    · rfl
  simp only [Bool.or_eq_true, decide_eq_true_eq] at hc2
  rcases hc2 with ((((rfl | rfl) | rfl) | rfl) | rfl) | rfl <;> exact absurd h (by decide)

theorem parseMDY_rebuild (m d y : List Char)
    (hm : m.all Char.isDigit = true) (hmL : m.length = 1 ∨ m.length = 2)
    (hd : d.all Char.isDigit = true) (hdL : d.length = 1 ∨ d.length = 2)
    (hy : y.all Char.isDigit = true) (hyL : y.length = 4) :
    ∃ k, parseMDY (m ++ '/' :: (d ++ '/' :: y)) = some (m, d, y, k) := by
  obtain ⟨y1, y2, y3, y4, rfl⟩ : ∃ a b c e, y = [a, b, c, e] := by
    rcases y with _ | ⟨y1, _ | ⟨y2, _ | ⟨y3, _ | ⟨y4, rest⟩⟩⟩⟩ <;> simp at hyL
    exact ⟨y1, y2, y3, y4, by rw [hyL]⟩
  simp only [List.all_cons, List.all_nil, Bool.and_eq_true, Bool.and_true] at hy
  obtain ⟨hy1, hy2, hy3, hy4⟩ := hy
  rcases hmL with hm1 | hm2
  · obtain ⟨a, rfl⟩ := List.length_eq_one.mp hm1
    simp only [List.all_cons, List.all_nil, Bool.and_true] at hm
    rcases hdL with hd1 | hd2
    · obtain ⟨c, rfl⟩ := List.length_eq_one.mp hd1
      simp only [List.all_cons, List.all_nil, Bool.and_true] at hd
      exact ⟨8, by simp [parseMDY, parseMDYAt, splitDigits, expectSlash, hm, hd,
        hy1, hy2, hy3, hy4, (by decide : Char.isDigit '/' = false)]⟩
    · obtain ⟨c, e, rfl⟩ := List.length_eq_two.mp hd2
      simp only [List.all_cons, List.all_nil, Bool.and_eq_true, Bool.and_true] at hd
      obtain ⟨hd1', hd2'⟩ := hd
      exact ⟨9, by simp [parseMDY, parseMDYAt, splitDigits, expectSlash, hm, hd1', hd2',
        hy1, hy2, hy3, hy4, (by decide : Char.isDigit '/' = false)]⟩
  · obtain ⟨a, b, rfl⟩ := List.length_eq_two.mp hm2
    simp only [List.all_cons, List.all_nil, Bool.and_eq_true, Bool.and_true] at hm
    obtain ⟨hma, hmb⟩ := hm
    rcases hdL with hd1 | hd2
    · obtain ⟨c, rfl⟩ := List.length_eq_one.mp hd1
      simp only [List.all_cons, List.all_nil, Bool.and_true] at hd
      exact ⟨9, by simp [parseMDY, parseMDYAt, splitDigits, expectSlash, hma, hmb, hd,
        hy1, hy2, hy3, hy4, (by decide : Char.isDigit '/' = false)]⟩
    · obtain ⟨c, e, rfl⟩ := List.length_eq_two.mp hd2
      simp only [List.all_cons, List.all_nil, Bool.and_eq_true, Bool.and_true] at hd
      obtain ⟨hd1', hd2'⟩ := hd
      exact ⟨10, by simp [parseMDY, parseMDYAt, splitDigits, expectSlash, hma, hmb,
        hd1', hd2', hy1, hy2, hy3, hy4, (by decide : Char.isDigit '/' = false)]⟩

theorem normalize_date_of_none (s : List Char) (h : parseMDY (pyStrip s) = none) :
    normalize_date s = pyStrip s := by
  by_cases hs : s = []
  · subst hs
    rfl
  · rw [normalize_date, if_neg hs]
    simp only [h]

theorem normalize_date_of_some (s m d y : List Char) (k : ℕ) (hs : s ≠ [])
    (h : parseMDY (pyStrip s) = some (m, d, y, k)) :
    normalize_date s = pyIntStr m ++ '/' :: (pyIntStr d ++ '/' :: y) := by
  rw [normalize_date, if_neg hs]
  simp only [h]

theorem normalize_date_fixes_output (m d y : List Char)
    (hm : m.all Char.isDigit = true) (hmL : m.length = 1 ∨ m.length = 2)
    (hd : d.all Char.isDigit = true) (hdL : d.length = 1 ∨ d.length = 2)
    (hy : y.all Char.isDigit = true) (hyL : y.length = 4) :
    normalize_date (pyIntStr m ++ '/' :: (pyIntStr d ++ '/' :: y))
      = pyIntStr m ++ '/' :: (pyIntStr d ++ '/' :: y) := by
  have hmne : m ≠ [] := by
    intro hh
    subst hh
    simp at hmL
  have hdne : d ≠ [] := by
    intro hh
    subst hh
    simp at hdL
  have hyne : y ≠ [] := by
    intro hh
    subst hh
    simp at hyL
  have hm'd : (pyIntStr m).all Char.isDigit = true := pyIntStr_all_digits m hm
  have hd'd : (pyIntStr d).all Char.isDigit = true := pyIntStr_all_digits d hd
  have hm'L : (pyIntStr m).length = 1 ∨ (pyIntStr m).length = 2 := by
    have h1 : 1 ≤ (pyIntStr m).length :=
      Nat.one_le_iff_ne_zero.mpr (fun hh => pyIntStr_ne_nil m (List.length_eq_zero.mp hh))
    have h2 : (pyIntStr m).length ≤ m.length := pyIntStr_length_le m hmne
    rcases hmL with h3 | h3 <;> omega
  have hd'L : (pyIntStr d).length = 1 ∨ (pyIntStr d).length = 2 := by
    have h1 : 1 ≤ (pyIntStr d).length :=
      Nat.one_le_iff_ne_zero.mpr (fun hh => pyIntStr_ne_nil d (List.length_eq_zero.mp hh))
    have h2 : (pyIntStr d).length ≤ d.length := pyIntStr_length_le d hdne
    rcases hdL with h3 | h3 <;> omega
  obtain ⟨k, hk⟩ := parseMDY_rebuild (pyIntStr m) (pyIntStr d) y hm'd hm'L hd'd hd'L hy hyL
  have hne : pyIntStr m ++ '/' :: (pyIntStr d ++ '/' :: y) ≠ [] := by
    cases hmm : pyIntStr m with
    | nil => exact absurd hmm (pyIntStr_ne_nil m)
    | cons a as => simp [hmm]
  have hstrip : pyStrip (pyIntStr m ++ '/' :: (pyIntStr d ++ '/' :: y))
      = pyIntStr m ++ '/' :: (pyIntStr d ++ '/' :: y) := by
    apply pyStrip_eq_self
    · intro c hc
      cases hmm : pyIntStr m with
      | nil => exact absurd hmm (pyIntStr_ne_nil m)
      | cons a as =>
        rw [hmm] at hc
        have hac : a = c := by simpa using hc
        subst hac
        have had : a.isDigit = true := by
          have h2 := hm'd
          rw [hmm] at h2
          simp only [List.all_cons, Bool.and_eq_true] at h2
          exact h2.1
        exact not_ws_of_digit a had
    · intro c hc
      rw [List.getLast?_append_of_ne_nil _ (by simp)] at hc
      rw [← List.cons_append] at hc
      rw [List.getLast?_append_of_ne_nil _ (by simp)] at hc
      rw [show ('/' :: y : List Char) = ['/'] ++ y from rfl] at hc
      rw [List.getLast?_append_of_ne_nil _ hyne] at hc
      have hcy : c ∈ y := List.mem_of_getLast?_eq_some hc
      exact not_ws_of_digit c (List.all_eq_true.mp hy c hcy)
  have hnd := normalize_date_of_some _ _ _ _ _ hne (by rw [hstrip]; exact hk)
  rw [hnd, pyIntStr_idem m, pyIntStr_idem d]

theorem normalize_date_idem (s : List Char) :
    normalize_date (normalize_date s) = normalize_date s := by
  by_cases hs : s = []
  · subst hs
    rfl
  · cases h : parseMDY (pyStrip s) with
    | none =>
      rw [normalize_date_of_none s h]
      by_cases ht : pyStrip s = []
      · rw [ht]
        rfl
      · rw [normalize_date_of_none (pyStrip s) (by rw [pyStrip_idem]; exact h), pyStrip_idem]
    | some r =>
      obtain ⟨m, d, y, k⟩ := r
      rw [normalize_date_of_some s m d y k hs h]
      obtain ⟨a1, a2, a3, a4, a5, a6⟩ := parseMDY_shape _ _ _ _ _ h
      exact normalize_date_fixes_output m d y a2 a1 a4 a3 a6 a5

/-- C10 counterexample: a string that is not M/D/YYYY-shaped is not
left unchanged - `normalize_date` strips surrounding whitespace before
matching and returns the stripped string on no-match. -/
theorem normalize_date_changes_non_date_string :
    parseMDY (pyStrip " abc ".data) = none ∧
    normalize_date " abc ".data = "abc".data ∧
    normalize_date " abc ".data ≠ " abc ".data :=
  ⟨by decide, by decide, by decide⟩

/-- C10 (amended): `normalize_date` first trims whitespace; when the
trimmed string has an M/D/YYYY-shaped prefix it returns that date with
leading zeros stripped from month and day (dropping anything past the
match), otherwise it returns the trimmed string; it is idempotent, and
the two documented examples hold. -/
theorem normalize_date_idempotent_and_examples :
    (∀ s : List Char, normalize_date (normalize_date s) = normalize_date s) ∧
    normalize_date "08/11/2025".data = "8/11/2025".data ∧
    normalize_date "8/1/2025".data = "8/1/2025".data ∧
    (∀ s : List Char, parseMDY (pyStrip s) = none → normalize_date s = pyStrip s) ∧
    (∀ (s m d y : List Char) (k : ℕ), s ≠ [] →
      parseMDY (pyStrip s) = some (m, d, y, k) →
      normalize_date s = pyIntStr m ++ '/' :: (pyIntStr d ++ '/' :: y)) :=
  ⟨normalize_date_idem, by decide, by decide,
   fun s h => normalize_date_of_none s h,
   fun s m d y k hs h => normalize_date_of_some s m d y k hs h⟩

/-- C10 witness: idempotence and the no-match clause applied at
concrete inputs, discharging each hypothesis. -/
theorem normalize_date_idempotent_and_examples_witness :
    normalize_date (normalize_date "08/11/2025 tail".data)
      = normalize_date "08/11/2025 tail".data ∧
    parseMDY (pyStrip "hello".data) = none ∧
    normalize_date "hello".data = pyStrip "hello".data :=
  ⟨normalize_date_idempotent_and_examples.1 "08/11/2025 tail".data,
   by decide,
   normalize_date_idempotent_and_examples.2.2.2.1 "hello".data (by decide)⟩
